import Mathlib

/-!
Shallow embedding of the client-side rebalancing validator of setprotocol.js.

The embedded code is `RebalancingAssertions` (the lifecycle / bid admissibility
guards) and the issuance-amount calculation of `SetTokenAPI`.  Each `async`
method that reads on-chain state through `callAsync` accessors is modelled as a
pure function over a snapshot structure holding exactly the values those reads
return; a method that can `throw` returns `Except` with an error type mirroring
the error constructors it throws.  Chain integers (`uint256` values handled as
`BigNumber` in the source) are modelled as `Nat`; their `add`/`mul`/`modulo`/
comparison operations on non-negative integers are exact, matching `Nat`
arithmetic.  Addresses are the hex strings the library passes around.
-/

namespace SetProtocol

/-- On-chain addresses are plain hex strings in the client library. -/
abbrev Address := String

/-- The `RebalancingState` constants of `src/types/common.ts`: raw numeric codes
`DEFAULT = 0`, `PROPOSAL = 1`, `REBALANCE = 2` (each a `BigNumber` in the
source), not a closed enumeration. -/
def RebalancingState.DEFAULT : Nat := 0

/-- Numeric code of the `Proposal` phase. -/
def RebalancingState.PROPOSAL : Nat := 1

/-- Numeric code of the `Rebalance` phase. -/
def RebalancingState.REBALANCE : Nat := 2

/-- Snapshot of the on-chain `RebalancingSetToken` state observed through the
`callAsync` reads performed by `RebalancingAssertions` (`rebalanceState`,
`manager`, the timestamps and auction parameters, `getCombinedTokenArray`, and
the `getBidPrice` query, whose inflow/outflow arrays depend on the queried
quantity). -/
structure RebalancingSetToken where
  rebalanceState : Nat
  manager : Address
  lastRebalanceTimestamp : Nat
  rebalanceInterval : Nat
  proposalStartTime : Nat
  proposalPeriod : Nat
  minimumBid : Nat
  remainingCurrentSets : Nat
  combinedTokenArray : List Address
  bidPriceInflow : Nat → List Nat
  bidPriceOutflow : Nat → List Nat

/-- Errors thrown by `RebalancingAssertions`, one constructor per
`rebalancingErrors` message builder used in the source, carrying the values the
source interpolates into the message.  `INSUFFICIENT_TIME_PASSED` carries the
computed `nextAvailableRebalance` millisecond value; the source renders it with
the external `moment` date formatter, which is presentation only and is not
modelled.  `NOT_ENOUGH_SETS_REBALANCED`, `BID_AMOUNT_EXCEEDS_REMAINING_CURRENT_SETS`
and `BID_AMOUNT_NOT_MULTIPLE_OF_MINIMUM_BID` carry the numbers whose decimal
`toString` renderings the source interpolates (`toString` on naturals is
injective, so carrying the numbers loses nothing).  `INSUFFICIENT_BALANCE` is
the failure of `ERC20Assertions.hasSufficientBalanceAsync` (see below). -/
inductive RebalancingError where
  | REBALANCE_IN_PROGRESS (rebalancingSetTokenAddress : Address)
  | INCORRECT_STATE (rebalancingSetTokenAddress : Address) (requiredState : String)
  | NOT_REBALANCING_MANAGER (caller : Address)
  | INSUFFICIENT_TIME_PASSED (nextAvailableRebalance : Nat)
  | NOT_ENOUGH_SETS_REBALANCED (rebalancingSetTokenAddress : Address)
      (minimumBid remainingCurrentSets : Nat)
  | BID_AMOUNT_EXCEEDS_REMAINING_CURRENT_SETS (remainingCurrentSets bidQuantity : Nat)
  | BID_AMOUNT_NOT_MULTIPLE_OF_MINIMUM_BID (bidQuantity minimumBid : Nat)
  | INSUFFICIENT_BALANCE (tokenAddress : Address) (required actual : Nat)
  deriving DecidableEq, Repr

deriving instance DecidableEq for Except

/-- `RebalancingAssertions.isNotInRebalanceState`: throws
`REBALANCE_IN_PROGRESS` when `rebalanceState.eq(RebalancingState.REBALANCE)`. -/
def isNotInRebalanceState (rebalancingSetTokenAddress : Address)
    (s : RebalancingSetToken) : Except RebalancingError Unit :=
  if s.rebalanceState = RebalancingState.REBALANCE then
    .error (.REBALANCE_IN_PROGRESS rebalancingSetTokenAddress)
  else
    .ok ()

/-- `RebalancingAssertions.isInProposalState`: throws `INCORRECT_STATE` with
expected state `"Proposal"` when `!rebalanceState.eq(RebalancingState.PROPOSAL)`. -/
def isInProposalState (rebalancingSetTokenAddress : Address)
    (s : RebalancingSetToken) : Except RebalancingError Unit :=
  if s.rebalanceState = RebalancingState.PROPOSAL then
    .ok ()
  else
    .error (.INCORRECT_STATE rebalancingSetTokenAddress "Proposal")

/-- `RebalancingAssertions.isInRebalanceState`: throws `INCORRECT_STATE` with
expected state `"Rebalance"` when `!rebalanceState.eq(RebalancingState.REBALANCE)`. -/
def isInRebalanceState (rebalancingSetTokenAddress : Address)
    (s : RebalancingSetToken) : Except RebalancingError Unit :=
  if s.rebalanceState = RebalancingState.REBALANCE then
    .ok ()
  else
    .error (.INCORRECT_STATE rebalancingSetTokenAddress "Rebalance")

/-- `RebalancingAssertions.isManager`: throws `NOT_REBALANCING_MANAGER(caller)`
when `manager != caller`.  The source compares the two address strings directly
with JavaScript `!=`; no normalization of case or encoding is applied. -/
def isManager (rebalancingSetTokenAddress : Address) (caller : Address)
    (s : RebalancingSetToken) : Except RebalancingError Unit :=
  if s.manager ≠ caller then
    .error (.NOT_REBALANCING_MANAGER caller)
  else
    .ok ()

/-- ASCII lower-casing of a character (hex address encodings only differ in
the case of the letters `A`–`F`). -/
def lowerChar (c : Char) : Char :=
  if 65 ≤ c.toNat ∧ c.toNat ≤ 90 then Char.ofNat (c.toNat + 32) else c

/-- Canonical form of an address: the lower-cased hex string.  Two encodings of
the same on-chain address (e.g. EIP-55 checksummed vs lower-case) agree after
lower-casing.  Used only to state what address normalization would mean; the
source never applies it. -/
def canonicalAddress (a : Address) : Address :=
  ⟨a.data.map lowerChar⟩

/-- `RebalancingAssertions.sufficientTimeBetweenRebalance`: computes
`nextAvailableRebalance = (lastRebalanceTimestamp + rebalanceInterval) * 1000`
(chain timestamps are in seconds, `Date.now()` in milliseconds) with exact
`BigNumber` integer arithmetic and throws `INSUFFICIENT_TIME_PASSED` when
`nextAvailableRebalance > currentTimeStamp`.  `now` models `Date.now()`. -/
def sufficientTimeBetweenRebalance (s : RebalancingSetToken) (now : Nat) :
    Except RebalancingError Unit :=
  let nextAvailableRebalance := (s.lastRebalanceTimestamp + s.rebalanceInterval) * 1000
  if nextAvailableRebalance > now then
    .error (.INSUFFICIENT_TIME_PASSED nextAvailableRebalance)
  else
    .ok ()

/-- `RebalancingAssertions.sufficientTimeInProposalState`: same shape as
`sufficientTimeBetweenRebalance` using `proposalStartTime + proposalPeriod`. -/
def sufficientTimeInProposalState (s : RebalancingSetToken) (now : Nat) :
    Except RebalancingError Unit :=
  let nextAvailableRebalance := (s.proposalStartTime + s.proposalPeriod) * 1000
  if nextAvailableRebalance > now then
    .error (.INSUFFICIENT_TIME_PASSED nextAvailableRebalance)
  else
    .ok ()

/-- `RebalancingAssertions.enoughSetsRebalanced`: throws
`NOT_ENOUGH_SETS_REBALANCED(address, minimumBid, remainingCurrentSets)` when
`remainingCurrentSets.greaterThanOrEqualTo(minimumBid)`. -/
def enoughSetsRebalanced (rebalancingSetTokenAddress : Address)
    (s : RebalancingSetToken) : Except RebalancingError Unit :=
  if s.remainingCurrentSets ≥ s.minimumBid then
    .error (.NOT_ENOUGH_SETS_REBALANCED rebalancingSetTokenAddress
      s.minimumBid s.remainingCurrentSets)
  else
    .ok ()

/-- `RebalancingAssertions.bidAmountLessThanRemainingSets`: throws
`BID_AMOUNT_EXCEEDS_REMAINING_CURRENT_SETS` when
`bidQuantity.greaterThan(remainingCurrentSets)`. -/
def bidAmountLessThanRemainingSets (rebalancingSetTokenAddress : Address)
    (s : RebalancingSetToken) (bidQuantity : Nat) : Except RebalancingError Unit :=
  if bidQuantity > s.remainingCurrentSets then
    .error (.BID_AMOUNT_EXCEEDS_REMAINING_CURRENT_SETS
      s.remainingCurrentSets bidQuantity)
  else
    .ok ()

/-- `RebalancingAssertions.bidIsMultipleOfMinimumBid`: throws
`BID_AMOUNT_NOT_MULTIPLE_OF_MINIMUM_BID` when
`!bidQuantity.modulo(minimumBid).isZero()`.  For a positive `minimumBid` the
`BigNumber` modulo of non-negative integers agrees with `Nat` modulo (the
source and the model only diverge at `minimumBid = 0`, where `BigNumber` yields
`NaN`; all claims assume `minimumBid > 0`). -/
def bidIsMultipleOfMinimumBid (rebalancingSetTokenAddress : Address)
    (s : RebalancingSetToken) (bidQuantity : Nat) : Except RebalancingError Unit :=
  if bidQuantity % s.minimumBid ≠ 0 then
    .error (.BID_AMOUNT_NOT_MULTIPLE_OF_MINIMUM_BID bidQuantity s.minimumBid)
  else
    .ok ()

/-- Modelled from the spec: `ERC20Assertions.hasSufficientBalanceAsync` is not
under `src/` (only its caller `RebalancingAssertions.hasSufficientBalances`
is).  Per the spec it reads the bidder's balance of the component and "fails
with `InsufficientBalance(component, required, actual)`" when the balance is
below the required inflow, succeeding at the boundary (`balance >= required`).
`balanceOf token owner` models the ERC-20 balance read. -/
def hasSufficientBalanceAsync (balanceOf : Address → Address → Nat)
    (tokenAddress userAddress : Address) (requiredBalance : Nat) :
    Except RebalancingError Unit :=
  let actual := balanceOf tokenAddress userAddress
  if actual < requiredBalance then
    .error (.INSUFFICIENT_BALANCE tokenAddress requiredBalance actual)
  else
    .ok ()

/-- One step of scanning a promise list for its earliest rejection: keep the
earliest rejection seen so far (`best`, as settlement time and reason); a later
entry replaces it only by settling strictly earlier, so a settlement-time tie
resolves to the earlier (first-created) promise. -/
def promiseStep {ε : Type} (best : Option (Nat × ε)) (p : Nat × Except ε Unit) :
    Option (Nat × ε) :=
  match p.2 with
  | .ok _ => best
  | .error e =>
    match best with
    | none => some (p.1, e)
    | some (t, e0) => if p.1 < t then some (p.1, e) else some (t, e0)

/-- Rejection semantics of JavaScript `Promise.all` over already-started
promises: if any promise rejects, `Promise.all` rejects with the reason of the
promise that settles (rejects) earliest in time; promises rejecting in the same
tick are observed in creation (index) order, so ties resolve to the earlier
list position.  Each entry pairs a promise's settlement time with its outcome. -/
def promiseAllFirstRejection {ε : Type} (promises : List (Nat × Except ε Unit)) :
    Except ε Unit :=
  match promises.foldl promiseStep none with
  | none => .ok ()
  | some (_, e) => .error e

/-- The per-component required inflows of a bid: the combined token array
paired positionally with the inflow array returned by `getBidPrice` for the
queried quantity (`inflowArray[index]` in the source; the model reads a missing
entry as `0`, the chain invariant being that `getBidPrice` returns one inflow
per combined token). -/
def requiredInflows (s : RebalancingSetToken) (quantity : Nat) :
    List (Address × Nat) :=
  s.combinedTokenArray.enum.map fun p => (p.2, (s.bidPriceInflow quantity).getD p.1 0)

/-- `RebalancingAssertions.hasSufficientBalances`: queries `getBidPrice` for
the inflow array and `getCombinedTokenArray` for the components, dispatches one
`hasSufficientBalanceAsync` check per component index concurrently (`_.map`
creating the promises immediately) and awaits them jointly with `Promise.all`.
`settleTime index` models the time at which the check of component `index`
settles (its network latency); the joint await rejects with the earliest
settling failure per `promiseAllFirstRejection`. -/
def hasSufficientBalances (s : RebalancingSetToken) (ownerAddress : Address)
    (quantity : Nat) (balanceOf : Address → Address → Nat) (settleTime : Nat → Nat) :
    Except RebalancingError Unit :=
  let inflowArray := s.bidPriceInflow quantity
  let components := s.combinedTokenArray
  promiseAllFirstRejection
    (components.enum.map fun p =>
      (settleTime p.1,
        hasSufficientBalanceAsync balanceOf p.2 ownerAddress (inflowArray.getD p.1 0)))

/-- Reference traversal following the spec's words: scan the required inflows
in combined-token-array order and report the first shortfall found (fail-fast,
first in iteration order).  Compared against the `Promise.all` semantics of the
source in the theorems below. -/
def firstShortfall (balanceOf : Address → Address → Nat) (ownerAddress : Address) :
    List (Address × Nat) → Except RebalancingError Unit
  | [] => .ok ()
  | (component, required) :: rest =>
    match hasSufficientBalanceAsync balanceOf component ownerAddress required with
    | .error e => .error e
    | .ok _ => firstShortfall balanceOf ownerAddress rest

/-- First rejection, in list order, among a list of outcomes (the behaviour of
a joint await when every promise settles in the same tick). -/
def firstError {ε : Type} : List (Except ε Unit) → Except ε Unit
  | [] => .ok ()
  | .error e :: _ => .error e
  | .ok _ :: rest => firstError rest

/-- Snapshot of a `SetToken` contract as read by `SetTokenAPI` through
`setToken.naturalUnit`, `setToken.getUnits` and `setToken.getComponents`. -/
structure SetToken where
  naturalUnit : Nat
  units : List Nat
  components : List Address

/-- A component address paired with a unit amount, the `Component` interface of
`src/types/common.ts`. -/
structure Component where
  address : Address
  unit : Nat
  deriving DecidableEq, Repr

/-- Errors thrown by `SetTokenAPI.calculateComponentAmountForIssuanceAsync` and
its assertions.  `UNDEFINED_ACCESS` models the JavaScript `TypeError` raised by
reading `.unit` of an out-of-bounds (`undefined`) array element. -/
inductive SetTokenError where
  | QUANTITY_NEEDS_TO_BE_POSITIVE (quantity : Nat)
  | IS_NOT_COMPONENT (setAddress componentAddress : Address)
  | UNDEFINED_ACCESS
  deriving DecidableEq, Repr

/-- Modelled from the spec: `calculatePartialAmount` lives in `../util`, which
is not under `src/` (the spec treats the numeric utilities as given
primitives).  Modelled as the proportional amount
`componentUnit * quantity / naturalUnit`; the theorems about
`calculateComponentAmountForIssuance` relate the two API functions and do not
depend on this formula. -/
def calculatePartialAmount (principal amountToTransfer totalAmount : Nat) : Nat :=
  principal * amountToTransfer / totalAmount

/-- lodash `_.indexOf` over an address array: index of the first occurrence
under SameValueZero (string) equality, `none` standing for the source's `-1`. -/
def lodashIndexOf : List Address → Address → Option Nat
  | [], _ => none
  | x :: xs, a => if x = a then some 0 else (lodashIndexOf xs a).map (· + 1)

/-- `SetTokenAPI.assertCalculateUnitTransferred`: asserts `quantity > 0`
(throwing `QUANTITY_NEEDS_TO_BE_POSITIVE`), then throws `IS_NOT_COMPONENT`
when `_.indexOf(componentAddresses, componentAddress) < 0`.  (The schema
address-validity checks are out of scope per the spec and not modelled.) -/
def assertCalculateUnitTransferred (s : SetToken)
    (setAddress componentAddress : Address) (quantity : Nat) :
    Except SetTokenError Unit :=
  if quantity = 0 then
    .error (.QUANTITY_NEEDS_TO_BE_POSITIVE quantity)
  else
    match lodashIndexOf s.components componentAddress with
    | none => .error (.IS_NOT_COMPONENT setAddress componentAddress)
    | some _ => .ok ()

/-- `SetTokenAPI.calculateComponentAmountsForIssuanceAsync`: asserts
`quantity > 0`, then maps each component unit at `index` to the `Component`
record with `components[index]` and
`calculatePartialAmount(componentUnit, quantity, naturalUnit)` (the model
reads a missing `components[index]` as the empty address; well-formed sets
carry one address per unit). -/
def calculateComponentAmountsForIssuance (s : SetToken) (setAddress : Address)
    (quantity : Nat) : Except SetTokenError (List Component) :=
  if quantity = 0 then
    .error (.QUANTITY_NEEDS_TO_BE_POSITIVE quantity)
  else
    .ok (s.units.enum.map fun p =>
      { address := s.components.getD p.1 ""
        unit := calculatePartialAmount p.2 quantity s.naturalUnit })

/-- `SetTokenAPI.calculateComponentAmountForIssuanceAsync`: runs
`assertCalculateUnitTransferred`, recomputes
`componentIndex = _.indexOf(components, componentAddress)`, computes the
per-component issuance amounts and returns
`amountsForIssuance[componentIndex].unit`. -/
def calculateComponentAmountForIssuance (s : SetToken)
    (setAddress componentAddress : Address) (quantity : Nat) :
    Except SetTokenError Nat := do
  _ ← assertCalculateUnitTransferred s setAddress componentAddress quantity
  let amountsForIssuance ← calculateComponentAmountsForIssuance s setAddress quantity
  match lodashIndexOf s.components componentAddress with
  | some componentIndex =>
    match amountsForIssuance[componentIndex]? with
    | some component => pure component.unit
    | none => .error .UNDEFINED_ACCESS
  | none => .error .UNDEFINED_ACCESS

/-- A concrete basket snapshot used by the witnesses of the guard theorems:
phase `Rebalance`, `minimumBid = 10`, `remainingCurrentSets = 25`. -/
def exampleBasket : RebalancingSetToken :=
  { rebalanceState := 2
    manager := "0xmanager"
    lastRebalanceTimestamp := 100
    rebalanceInterval := 50
    proposalStartTime := 0
    proposalPeriod := 0
    minimumBid := 10
    remainingCurrentSets := 25
    combinedTokenArray := []
    bidPriceInflow := fun _ => []
    bidPriceOutflow := fun _ => [] }

/-- A concrete basket with `minimumBid = 100` and `remainingCurrentSets = 500`,
the scenario of the bid-alignment claims. -/
def bidScenarioBasket : RebalancingSetToken :=
  { exampleBasket with minimumBid := 100, remainingCurrentSets := 500 }

/-- A concrete basket whose `manager` is stored in a checksummed-style (mixed
case) encoding. -/
def mixedCaseManagerBasket : RebalancingSetToken :=
  { exampleBasket with manager := "0xAB" }

/-- A concrete basket in an unknown phase `3`, outside the
`{DEFAULT, PROPOSAL, REBALANCE}` enumeration. -/
def unknownPhaseBasket : RebalancingSetToken :=
  { exampleBasket with rebalanceState := 3 }

/-- A concrete two-component auction where both components require an inflow of
`5` per bid: the counterexample state for the balance-check ordering claim. -/
def twoComponentBasket : RebalancingSetToken :=
  { exampleBasket with
    combinedTokenArray := ["0xA", "0xB"]
    bidPriceInflow := fun _ => [5, 5]
    bidPriceOutflow := fun _ => [0, 0] }

/-- A concrete one-component auction requiring an inflow of `50`. -/
def oneComponentBasket : RebalancingSetToken :=
  { exampleBasket with
    combinedTokenArray := ["0xX"]
    bidPriceInflow := fun _ => [50]
    bidPriceOutflow := fun _ => [0] }

/-- A concrete two-component Set with natural unit `1` and units `[2, 3]`. -/
def exampleSet : SetToken :=
  { naturalUnit := 1
    units := [2, 3]
    components := ["0xa", "0xb"] }

/-- Claim C1: for every basket state with `minimumBid > 0`, the
auction-progress guard `enoughSetsRebalanced` raises
`NOT_ENOUGH_SETS_REBALANCED` exactly when
`remainingCurrentSets >= minimumBid`, and succeeds exactly when
`remainingCurrentSets < minimumBid`. -/
theorem enoughSetsRebalanced_exhaustion_guard (addr : Address)
    (s : RebalancingSetToken) (hmin : 0 < s.minimumBid) :
    (enoughSetsRebalanced addr s =
        .error (.NOT_ENOUGH_SETS_REBALANCED addr s.minimumBid s.remainingCurrentSets) ↔
      s.minimumBid ≤ s.remainingCurrentSets) ∧
    (enoughSetsRebalanced addr s = .ok () ↔
      s.remainingCurrentSets < s.minimumBid) := by
  by_cases h : s.remainingCurrentSets ≥ s.minimumBid <;> simp [enoughSetsRebalanced, h]
  all_goals omega

/-- Witness for C1: the guard raises the violation on the concrete basket with
`minimumBid = 10` and `remainingCurrentSets = 25`. -/
theorem enoughSetsRebalanced_exhaustion_guard_witness :
    enoughSetsRebalanced "0xrebalancing" exampleBasket =
      .error (.NOT_ENOUGH_SETS_REBALANCED "0xrebalancing" 10 25) :=
  (enoughSetsRebalanced_exhaustion_guard "0xrebalancing" exampleBasket
    (by decide)).1.mpr (by decide)

/-- Claim C3: `sufficientTimeBetweenRebalance` computes
`nextAvailable = (lastRebalanceTimestamp + rebalanceInterval) * 1000` with
exact integer arithmetic, fails with `INSUFFICIENT_TIME_PASSED` carrying that
exact millisecond value when `now < nextAvailable`, and succeeds when
`now >= nextAvailable` (boundary inclusive). -/
theorem sufficientTimeBetweenRebalance_spec (s : RebalancingSetToken) (now : Nat) :
    (sufficientTimeBetweenRebalance s now =
        .error (.INSUFFICIENT_TIME_PASSED
          ((s.lastRebalanceTimestamp + s.rebalanceInterval) * 1000)) ↔
      now < (s.lastRebalanceTimestamp + s.rebalanceInterval) * 1000) ∧
    (sufficientTimeBetweenRebalance s now = .ok () ↔
      (s.lastRebalanceTimestamp + s.rebalanceInterval) * 1000 ≤ now) := by
  by_cases h : (s.lastRebalanceTimestamp + s.rebalanceInterval) * 1000 > now <;>
    simp [sufficientTimeBetweenRebalance, h]
  all_goals omega

/-- Witness for C3: with `lastRebalanceTimestamp = 100 s`,
`rebalanceInterval = 50 s` and `now = 100000 ms`, the guard fails carrying the
exact value `150000 ms`. -/
theorem sufficientTimeBetweenRebalance_spec_witness :
    sufficientTimeBetweenRebalance exampleBasket 100000 =
      .error (.INSUFFICIENT_TIME_PASSED 150000) :=
  (sufficientTimeBetweenRebalance_spec exampleBasket 100000).1.mpr (by decide)

/-- Claim C5: `bidAmountLessThanRemainingSets` fails with
`BID_AMOUNT_EXCEEDS_REMAINING_CURRENT_SETS` exactly when
`bidQuantity > remainingCurrentSets` and succeeds otherwise; in particular
equality succeeds. -/
theorem bidAmountLessThanRemainingSets_spec (addr : Address)
    (s : RebalancingSetToken) (bidQuantity : Nat) :
    (bidAmountLessThanRemainingSets addr s bidQuantity =
        .error (.BID_AMOUNT_EXCEEDS_REMAINING_CURRENT_SETS
          s.remainingCurrentSets bidQuantity) ↔
      s.remainingCurrentSets < bidQuantity) ∧
    (bidAmountLessThanRemainingSets addr s bidQuantity = .ok () ↔
      bidQuantity ≤ s.remainingCurrentSets) := by
  by_cases h : bidQuantity > s.remainingCurrentSets <;>
    simp [bidAmountLessThanRemainingSets, h]
  all_goals omega

/-- Witness for C5: the boundary bid `quantity = remainingCurrentSets = 500`
succeeds on the concrete basket. -/
theorem bidAmountLessThanRemainingSets_spec_witness :
    bidAmountLessThanRemainingSets "0xrebalancing" bidScenarioBasket 500 = .ok () :=
  (bidAmountLessThanRemainingSets_spec "0xrebalancing" bidScenarioBasket 500).2.mpr
    (by decide)

/-- Claim C6: for every bid quantity and every `minimumBid > 0`,
`bidIsMultipleOfMinimumBid` succeeds iff `bidQuantity mod minimumBid = 0`, and
otherwise fails with `BID_AMOUNT_NOT_MULTIPLE_OF_MINIMUM_BID`. -/
theorem bidIsMultipleOfMinimumBid_spec (addr : Address) (s : RebalancingSetToken)
    (bidQuantity : Nat) (hmin : 0 < s.minimumBid) :
    (bidIsMultipleOfMinimumBid addr s bidQuantity = .ok () ↔
      bidQuantity % s.minimumBid = 0) ∧
    (bidQuantity % s.minimumBid ≠ 0 →
      bidIsMultipleOfMinimumBid addr s bidQuantity =
        .error (.BID_AMOUNT_NOT_MULTIPLE_OF_MINIMUM_BID bidQuantity s.minimumBid)) := by
  by_cases h : bidQuantity % s.minimumBid = 0 <;> simp [bidIsMultipleOfMinimumBid, h]

/-- Witness for C6: with `minimumBid = 100` the aligned bid `200` succeeds. -/
theorem bidIsMultipleOfMinimumBid_spec_witness :
    bidIsMultipleOfMinimumBid "0xrebalancing" bidScenarioBasket 200 = .ok () :=
  (bidIsMultipleOfMinimumBid_spec "0xrebalancing" bidScenarioBasket 200
    (by decide)).1.mpr (by decide)

/-- Claim C7: `isInProposalState` succeeds exactly when the basket's phase is
`Proposal`, and fails with the `INCORRECT_STATE` phase violation whenever the
phase is anything else (in particular `Rebalance`). -/
theorem isInProposalState_spec (addr : Address) (s : RebalancingSetToken) :
    (isInProposalState addr s = .ok () ↔
      s.rebalanceState = RebalancingState.PROPOSAL) ∧
    (s.rebalanceState ≠ RebalancingState.PROPOSAL →
      isInProposalState addr s = .error (.INCORRECT_STATE addr "Proposal")) := by
  by_cases h : s.rebalanceState = RebalancingState.PROPOSAL <;>
    simp [isInProposalState, h]

/-- Witness for C7: the guard fails on the concrete basket in phase
`Rebalance` (`rebalanceState = 2`). -/
theorem isInProposalState_spec_witness :
    isInProposalState "0xrebalancing" exampleBasket =
      .error (.INCORRECT_STATE "0xrebalancing" "Proposal") :=
  (isInProposalState_spec "0xrebalancing" exampleBasket).2 (by decide)

/-- Claim C9: for a phase value outside the `{DEFAULT, PROPOSAL, REBALANCE}`
enumeration, `isNotInRebalanceState` succeeds while `isInProposalState` and
`isInRebalanceState` both fail: the guards compare the raw numeric state by
equality against each constant rather than matching a closed enumeration. -/
theorem unknownPhaseGuards (addr : Address) (s : RebalancingSetToken)
    (h0 : s.rebalanceState ≠ RebalancingState.DEFAULT)
    (h1 : s.rebalanceState ≠ RebalancingState.PROPOSAL)
    (h2 : s.rebalanceState ≠ RebalancingState.REBALANCE) :
    isNotInRebalanceState addr s = .ok () ∧
    isInProposalState addr s = .error (.INCORRECT_STATE addr "Proposal") ∧
    isInRebalanceState addr s = .error (.INCORRECT_STATE addr "Rebalance") := by
  simp [isNotInRebalanceState, isInProposalState, isInRebalanceState, h1, h2]

/-- Witness for C9: the concrete basket with raw phase value `3`. -/
theorem unknownPhaseGuards_witness :
    isNotInRebalanceState "0xrebalancing" unknownPhaseBasket = .ok () ∧
    isInProposalState "0xrebalancing" unknownPhaseBasket =
      .error (.INCORRECT_STATE "0xrebalancing" "Proposal") ∧
    isInRebalanceState "0xrebalancing" unknownPhaseBasket =
      .error (.INCORRECT_STATE "0xrebalancing" "Rebalance") :=
  unknownPhaseGuards "0xrebalancing" unknownPhaseBasket
    (by decide) (by decide) (by decide)

/-- Counterexample to claim C8: the claim's equality "with addresses normalized
consistently (e.g. lower-cased) before comparing, so that two encodings of the
same canonical address compare equal" does not hold of the source: with the
manager stored as `"0xAB"` and the caller given as `"0xab"`, the two encodings
have the same canonical (lower-cased) form, yet `isManager` raises
`NOT_REBALANCING_MANAGER` because the source compares the raw strings. -/
theorem isManager_normalization_counterexample :
    canonicalAddress "0xAB" = canonicalAddress "0xab" ∧
    isManager "0xrebalancing" "0xab" mixedCaseManagerBasket =
      .error (.NOT_REBALANCING_MANAGER "0xab") := by
  exact ⟨by decide, by decide⟩

/-- Amended claim C8: `isManager` fails with `NOT_REBALANCING_MANAGER` exactly
when `caller` differs from `basket.manager` as raw strings; the comparison is
exact and case-sensitive, with no normalization applied, so two different
encodings of the same canonical address compare unequal. -/
theorem isManager_exact_string_comparison (addr caller : Address)
    (s : RebalancingSetToken) :
    (isManager addr caller s = .ok () ↔ s.manager = caller) ∧
    (s.manager ≠ caller →
      isManager addr caller s = .error (.NOT_REBALANCING_MANAGER caller)) := by
  by_cases h : s.manager = caller <;> simp [isManager, h]

/-- Witness for the amended C8: a caller that differs from the stored manager
string is rejected. -/
theorem isManager_exact_string_comparison_witness :
    isManager "0xrebalancing" "0xcaller" mixedCaseManagerBasket =
      .error (.NOT_REBALANCING_MANAGER "0xcaller") :=
  (isManager_exact_string_comparison "0xrebalancing" "0xcaller"
    mixedCaseManagerBasket).2 (by decide)

/-- A rejection already held is kept by every later entry that settles no
earlier. -/
theorem promiseStep_keeps {ε : Type} (t c : Nat) (e0 : ε) (r : Except ε Unit)
    (ht : t ≤ c) : promiseStep (some (t, e0)) (c, r) = some (t, e0) := by
  cases r with
  | ok u => rfl
  | error e => simp [promiseStep, Nat.not_lt.mpr ht]

/-- Scanning past entries that all settle at time `c` never displaces a
rejection that settled at time `t ≤ c`. -/
theorem foldl_promiseStep_const {ε α : Type} (c t : Nat) (e0 : ε) (l : List α)
    (f : α → Except ε Unit) (ht : t ≤ c) :
    (l.map fun a => (c, f a)).foldl promiseStep (some (t, e0)) = some (t, e0) := by
  induction l with
  | nil => rfl
  | cons a rest ih =>
    simp only [List.map_cons, List.foldl_cons, promiseStep_keeps t c e0 (f a) ht]
    exact ih

/-- When every promise settles at the same time `c`, the joint await rejects
with the first rejection in creation (list) order. -/
theorem promiseAll_const_eq_firstError {ε α : Type} (c : Nat) (l : List α)
    (f : α → Except ε Unit) :
    promiseAllFirstRejection (l.map fun a => (c, f a)) = firstError (l.map f) := by
  induction l with
  | nil => rfl
  | cons a rest ih =>
    cases h : f a with
    | ok u =>
      simp only [promiseAllFirstRejection, List.map_cons, List.foldl_cons, h,
        promiseStep, firstError] at ih ⊢
      exact ih
    | error e =>
      simp only [promiseAllFirstRejection, List.map_cons, List.foldl_cons, h,
        promiseStep, firstError]
      rw [foldl_promiseStep_const c c e rest f (Nat.le_refl c)]

/-- The fail-fast in-order scan agrees with taking the first rejection, in
list order, of the individual check outcomes. -/
theorem firstShortfall_eq_firstError (balanceOf : Address → Address → Nat)
    (ownerAddress : Address) (l : List (Address × Nat)) :
    firstShortfall balanceOf ownerAddress l =
      firstError (l.map fun p =>
        hasSufficientBalanceAsync balanceOf p.1 ownerAddress p.2) := by
  induction l with
  | nil => rfl
  | cons p rest ih =>
    cases h : hasSufficientBalanceAsync balanceOf p.1 ownerAddress p.2 with
    | ok u => simp [firstShortfall, firstError, h, ih]
    | error e => simp [firstShortfall, firstError, h]

/-- Counterexample to claim C2: on a basket whose combined token array lists
component `"0xA"` before component `"0xB"`, with both bidder balances (`0`)
below both required inflows (`5`), `hasSufficientBalances` reports component
B's `INSUFFICIENT_BALANCE` — not A's — when B's balance read settles earlier
(settlement times `10` for A, `1` for B): `Promise.all` rejects with the
earliest-settling rejection, not the first in iteration order. -/
theorem hasSufficientBalances_order_counterexample :
    twoComponentBasket.combinedTokenArray = ["0xA", "0xB"] ∧
    (0 : Nat) < 5 ∧
    hasSufficientBalances twoComponentBasket "0xbidder" 100 (fun _ _ => 0)
        (fun i => if i = 0 then 10 else 1) =
      .error (.INSUFFICIENT_BALANCE "0xB" 5 0) ∧
    (Except.error (RebalancingError.INSUFFICIENT_BALANCE "0xB" 5 0) :
        Except RebalancingError Unit) ≠
      .error (.INSUFFICIENT_BALANCE "0xA" 5 0) :=
  ⟨rfl, by decide, by decide, by decide⟩

/-- Amended claim C2: when every per-component balance check settles
simultaneously (the same settlement time for all components, as when the reads
resolve in the same tick), `hasSufficientBalances` reports exactly the first
failing component in combined-token-array iteration order — the fail-fast
first-shortfall scan.  In general the source's `Promise.all` reports the
earliest-settling failure, so the in-order guarantee holds only under
simultaneous settlement. -/
theorem hasSufficientBalances_simultaneous_order (s : RebalancingSetToken)
    (ownerAddress : Address) (quantity : Nat)
    (balanceOf : Address → Address → Nat) (c : Nat) :
    hasSufficientBalances s ownerAddress quantity balanceOf (fun _ => c) =
      firstShortfall balanceOf ownerAddress (requiredInflows s quantity) := by
  unfold hasSufficientBalances requiredInflows
  rw [firstShortfall_eq_firstError, List.map_map]
  exact promiseAll_const_eq_firstError c s.combinedTokenArray.enum _

/-- Witness for the amended C2: on the concrete two-component basket with all
checks settling at time `7`, the joint await agrees with the in-order scan. -/
theorem hasSufficientBalances_simultaneous_order_witness :
    hasSufficientBalances twoComponentBasket "0xbidder" 100 (fun _ _ => 0)
        (fun _ => 7) =
      firstShortfall (fun _ _ => 0) "0xbidder" (requiredInflows twoComponentBasket 100) :=
  hasSufficientBalances_simultaneous_order twoComponentBasket "0xbidder" 100
    (fun _ _ => 0) 7

/-- Claim C4: for a component with a positive required inflow,
`hasSufficientBalances` fails with `INSUFFICIENT_BALANCE` carrying the
component, the required inflow and the actual balance when the bidder's
balance is strictly below the required inflow, and succeeds when the balance
is at least the required inflow (boundary inclusive). -/
theorem hasSufficientBalances_boundary (s : RebalancingSetToken)
    (ownerAddress : Address) (quantity : Nat) (balanceOf : Address → Address → Nat)
    (settleTime : Nat → Nat) (X : Address) (required : Nat)
    (hcomp : s.combinedTokenArray = [X])
    (hin : s.bidPriceInflow quantity = [required]) (hreq : 0 < required) :
    (balanceOf X ownerAddress < required →
      hasSufficientBalances s ownerAddress quantity balanceOf settleTime =
        .error (.INSUFFICIENT_BALANCE X required (balanceOf X ownerAddress))) ∧
    (required ≤ balanceOf X ownerAddress →
      hasSufficientBalances s ownerAddress quantity balanceOf settleTime = .ok ()) := by
  unfold hasSufficientBalances
  rw [hcomp, hin]
  constructor
  · intro h
    simp [promiseAllFirstRejection, promiseStep, hasSufficientBalanceAsync,
      List.enum, List.enumFrom, h]
  · intro h
    simp [promiseAllFirstRejection, promiseStep, hasSufficientBalanceAsync,
      List.enum, List.enumFrom, Nat.not_lt.mpr h]

/-- Witness for C4: on the concrete one-component basket requiring an inflow
of `50`, a bidder balance of `40` yields `INSUFFICIENT_BALANCE("0xX", 50, 40)`. -/
theorem hasSufficientBalances_boundary_witness :
    hasSufficientBalances oneComponentBasket "0xbidder" 100 (fun _ _ => 40)
        (fun _ => 0) =
      .error (.INSUFFICIENT_BALANCE "0xX" 50 40) :=
  (hasSufficientBalances_boundary oneComponentBasket "0xbidder" 100
    (fun _ _ => 40) (fun _ => 0) "0xX" 50 rfl rfl (by decide)).1 (by decide)

/-- `_.indexOf` misses (returns `-1`, here `none`) exactly on the addresses
not occurring in the array. -/
theorem lodashIndexOf_eq_none (l : List Address) (a : Address) :
    lodashIndexOf l a = none ↔ a ∉ l := by
  induction l with
  | nil => simp [lodashIndexOf]
  | cons x xs ih =>
    by_cases h : x = a
    · simp [lodashIndexOf, h]
    · simp [lodashIndexOf, h, ih, Ne.symm h]

/-- An index found by `_.indexOf` is within the array's bounds. -/
theorem lodashIndexOf_lt_length (l : List Address) (a : Address) (i : Nat)
    (h : lodashIndexOf l a = some i) : i < l.length := by
  induction l generalizing i with
  | nil => simp [lodashIndexOf] at h
  | cons x xs ih =>
    by_cases hx : x = a
    · simp [lodashIndexOf, hx] at h
      simp [← h]
    · simp [lodashIndexOf, hx] at h
      obtain ⟨j, hj, rfl⟩ := h
      have := ih j hj
      simp
      omega

/-- Claim C10: for `quantity > 0`, `calculateComponentAmountForIssuance`
throws `IS_NOT_COMPONENT` when the component address does not occur in the
Set's component list, and otherwise returns exactly the unit amount that
`calculateComponentAmountsForIssuance` produces at the index of the component
address in that list.  (`hlen` is the chain invariant that a Set carries one
unit per component.) -/
theorem calculateComponentAmountForIssuance_spec (s : SetToken)
    (setAddress componentAddress : Address) (quantity : Nat)
    (hq : 0 < quantity) (hlen : s.units.length = s.components.length) :
    (componentAddress ∉ s.components →
      calculateComponentAmountForIssuance s setAddress componentAddress quantity =
        .error (.IS_NOT_COMPONENT setAddress componentAddress)) ∧
    (∀ i, lodashIndexOf s.components componentAddress = some i →
      ∀ amounts,
        calculateComponentAmountsForIssuance s setAddress quantity = .ok amounts →
          ∃ component, amounts[i]? = some component ∧
            calculateComponentAmountForIssuance s setAddress componentAddress quantity =
              .ok component.unit) := by
  have hq0 : quantity ≠ 0 := hq.ne'
  constructor
  · intro hmem
    have hidx : lodashIndexOf s.components componentAddress = none :=
      (lodashIndexOf_eq_none _ _).mpr hmem
    simp [calculateComponentAmountForIssuance, assertCalculateUnitTransferred,
      hq0, hidx, Bind.bind, Except.bind]
  · intro i hi amounts hamounts
    have hlt : i < s.components.length := lodashIndexOf_lt_length _ _ _ hi
    have hlenam : amounts.length = s.units.length := by
      simp [calculateComponentAmountsForIssuance, hq0] at hamounts
      simp [← hamounts]
    have hlti : i < amounts.length := by omega
    cases hcomp : amounts[i]? with
    | none =>
      rw [List.getElem?_eq_none_iff] at hcomp
      omega
    | some component =>
      refine ⟨component, rfl, ?_⟩
      simp [calculateComponentAmountForIssuance, assertCalculateUnitTransferred,
        hq0, hi, hamounts, hcomp, Bind.bind, Except.bind, Pure.pure, Except.pure]

/-- Witness for C10: on the concrete Set with units `[2, 3]`, components
`["0xa", "0xb"]` and natural unit `1`, querying component `"0xb"` at quantity
`10` returns the unit `30` computed at index `1` of the per-component amounts. -/
theorem calculateComponentAmountForIssuance_spec_witness :
    ∃ component,
      ([⟨"0xa", 20⟩, ⟨"0xb", 30⟩] : List Component)[1]? = some component ∧
        calculateComponentAmountForIssuance exampleSet "0xset" "0xb" 10 =
          .ok component.unit :=
  (calculateComponentAmountForIssuance_spec exampleSet "0xset" "0xb" 10
    (by decide) (by decide)).2 1 (by decide)
    [⟨"0xa", 20⟩, ⟨"0xb", 30⟩] (by decide)

end SetProtocol
